import Mathlib

/-
Verification of the webhook ingestion / delivery-tracking pipeline and the
OAuth-provider construction logic of the universal-integration-framework
repository (TypeScript), as a shallow embedding in Lean.

Modelling conventions, used consistently below:
- JavaScript strings are Lean `String`; `Buffer.from(s)` is the UTF-8 byte
  list of `s` (`utf8Bytes`), with bytes as `Nat`.
- JavaScript numbers are `ℚ` where fractional values occur (delays, jitter,
  timestamps) and `ℕ` for counts; 32-bit hash arithmetic is `Nat` with
  explicit `% 2^32`.
- `undefined`-able values are `Option`; JS truthiness of an optional string
  (`undefined`/`""` falsy) is `optTruthy`; `a || b` is `jsOr`/`jsOrStr`.
- A thrown JS exception is `Except.error` carrying the error message;
  fallible code returns `Except String α`.
- `Map`/plain-object dictionaries are association lists with
  `lookupA`/`setA` (set replaces in place, else appends — insertion order,
  matching JS `Map`).
- Nondeterministic environment inputs (`Math.random()`, `crypto.randomBytes`,
  `Date.now()`) are explicit oracle parameters of the functions that draw
  them (`rand : ℚ`, `rnd : List Nat`, `now : ℚ`, fresh delivery ids).
- Node's `crypto.createHmac`/`createHash` are embedded as full executable
  implementations of SHA-256, SHA-1 and HMAC (RFC 6234 / RFC 3174 /
  RFC 2104); `crypto.timingSafeEqual` is the XOR-accumulating comparison
  that throws on a byte-length mismatch, as Node documents.
-/

set_option maxRecDepth 100000

namespace UIF

/-- JS truthiness of an optional string: `undefined`/`null` and `""` are
falsy, every other string truthy. -/
def optTruthy : Option String → Bool
  | none => false
  | some s => !s.isEmpty

/-- JS `a || b` on optional strings: the first operand when truthy, else the
second (which is returned even when itself falsy, as in JS). -/
def jsOr (a b : Option String) : Option String :=
  if optTruthy a then a else b

/-- JS `a || b` where the fallback is a plain (non-optional) string. -/
def jsOrStr (a : Option String) (b : String) : String :=
  if optTruthy a then a.getD "" else b

/-- JS `toLowerCase()` for the ASCII header names involved, character by
character (semantically `String.toLower`, stated over the character list so
that it evaluates by kernel reduction). -/
def jsToLower (s : String) : String := ⟨s.data.map Char.toLower⟩

/-- JS truthiness of an optional boolean (`undefined` and `false` falsy). -/
def jsBoolTruthy : Option Bool → Bool
  | some true => true
  | _ => false

/-- JS `a || b` on option values whose payload is always truthy (objects,
functions): the first operand when present, else the second. -/
def jsOrOpt {α : Type} (a b : Option α) : Option α :=
  if a.isSome then a else b

/-- Lookup in an association list (JS `Map.get` / object property read):
first matching key wins. -/
def lookupA {α : Type} : List (String × α) → String → Option α
  | [], _ => none
  | p :: t, k => if p.1 = k then some p.2 else lookupA t k

/-- Update in an association list (JS `Map.set` / object property write):
replace the entry in place, keeping its insertion position, when the key
exists; else append at the end. -/
def setA {α : Type} : List (String × α) → String → α → List (String × α)
  | [], k, v => [(k, v)]
  | p :: t, k, v => if p.1 = k then (k, v) :: t else p :: setA t k v

/-! ### Bytes and hex -/

/-- UTF-8 encoding of one Unicode codepoint. -/
def utf8EncodeChar (c : Nat) : List Nat :=
  if c < 0x80 then [c]
  else if c < 0x800 then [0xC0 ||| (c >>> 6), 0x80 ||| (c &&& 0x3F)]
  else if c < 0x10000 then
    [0xE0 ||| (c >>> 12), 0x80 ||| ((c >>> 6) &&& 0x3F), 0x80 ||| (c &&& 0x3F)]
  else
    [0xF0 ||| (c >>> 18), 0x80 ||| ((c >>> 12) &&& 0x3F),
     0x80 ||| ((c >>> 6) &&& 0x3F), 0x80 ||| (c &&& 0x3F)]

/-- UTF-8 bytes of a string (Node `Buffer.from(s)` semantics). -/
def utf8Bytes (s : String) : List Nat :=
  (s.data.map (fun c => utf8EncodeChar c.toNat)).flatten

/-- Lowercase hex digit for a value below 16. -/
def hexChar (n : Nat) : Char := "0123456789abcdef".data.getD n '0'

/-- Lowercase hex rendering of a byte list (Node `toString("hex")` /
`digest("hex")` semantics). -/
def bytesToHex (bs : List Nat) : String :=
  ⟨(bs.map (fun b => [hexChar (b / 16), hexChar (b % 16)])).flatten⟩

/-! ### SHA-256, SHA-1 and HMAC

Executable embeddings of the Node `crypto` primitives the validators call.
They are checked against the published RFC/FIPS test vectors in the theorem
section. -/

def M32 : Nat := 4294967296

def rotr32 (x n : Nat) : Nat := ((x >>> n) ||| (x <<< (32 - n))) % M32

def rotl32 (x n : Nat) : Nat := ((x <<< n) ||| (x >>> (32 - n))) % M32

/-- Split a byte list into big-endian 32-bit words (4 bytes each). -/
def bytesToWords32 : List Nat → List Nat
  | b0 :: b1 :: b2 :: b3 :: rest =>
      ((b0 <<< 24) ||| (b1 <<< 16) ||| (b2 <<< 8) ||| b3) :: bytesToWords32 rest
  | _ => []

/-- Big-endian 8-byte encoding of a natural number. -/
def be64 (n : Nat) : List Nat :=
  [(n >>> 56) % 256, (n >>> 48) % 256, (n >>> 40) % 256, (n >>> 32) % 256,
   (n >>> 24) % 256, (n >>> 16) % 256, (n >>> 8) % 256, n % 256]

/-- Merkle–Damgård padding shared by SHA-1 and SHA-256: append `0x80`, zero
bytes up to 56 mod 64, then the 64-bit big-endian bit length. -/
def mdPad (msg : List Nat) : List Nat :=
  msg ++ [0x80] ++ List.replicate ((119 - msg.length % 64) % 64) 0 ++ be64 (8 * msg.length)

/-- Chop a byte list into 64-byte blocks; `fuel` bounds the recursion (the
callers pass the list length). -/
def chunks64 : Nat → List Nat → List (List Nat)
  | 0, _ => []
  | _, [] => []
  | fuel + 1, l => l.take 64 :: chunks64 fuel (l.drop 64)

namespace SHA256

/-- The 64 SHA-256 round constants (FIPS 180-4 §4.2.2), in decimal. -/
def K : List Nat :=
  [1116352408, 1899447441, 3049323471, 3921009573, 961987163, 1508970993,
   2453635748, 2870763221, 3624381080, 310598401, 607225278, 1426881987,
   1925078388, 2162078206, 2614888103, 3248222580, 3835390401, 4022224774,
   264347078, 604807628, 770255983, 1249150122, 1555081692, 1996064986,
   2554220882, 2821834349, 2952996808, 3210313671, 3336571891, 3584528711,
   113926993, 338241895, 666307205, 773529912, 1294757372, 1396182291,
   1695183700, 1986661051, 2177026350, 2456956037, 2730485921, 2820302411,
   3259730800, 3345764771, 3516065817, 3600352804, 4094571909, 275423344,
   430227734, 506948616, 659060556, 883997877, 958139571, 1322822218,
   1537002063, 1747873779, 1955562222, 2024104815, 2227730452, 2361852424,
   2428436474, 2756734187, 3204031479, 3329325298]

/-- The eight SHA-256 initial hash values (FIPS 180-4 §5.3.3), in decimal. -/
def H0 : List Nat :=
  [1779033703, 3144134277, 1013904242, 2773480762,
   1359893119, 2600822924, 528734635, 1541459225]

def s0 (x : Nat) : Nat := rotr32 x 7 ^^^ rotr32 x 18 ^^^ (x >>> 3)

def s1 (x : Nat) : Nat := rotr32 x 17 ^^^ rotr32 x 19 ^^^ (x >>> 10)

def S0 (x : Nat) : Nat := rotr32 x 2 ^^^ rotr32 x 13 ^^^ rotr32 x 22

def S1 (x : Nat) : Nat := rotr32 x 6 ^^^ rotr32 x 11 ^^^ rotr32 x 25

def ch (x y z : Nat) : Nat := (x &&& y) ^^^ ((x ^^^ 0xffffffff) &&& z)

def maj (x y z : Nat) : Nat := (x &&& y) ^^^ (x &&& z) ^^^ (y &&& z)

/-- Message-schedule extension; `ws` holds the words produced so far, most
recent first. -/
def extend : Nat → List Nat → List Nat
  | 0, ws => ws
  | n + 1, ws =>
    extend n (((s1 (ws.getD 1 0) + ws.getD 6 0 + s0 (ws.getD 14 0) + ws.getD 15 0) % M32) :: ws)

def schedule (block : List Nat) : List Nat :=
  (extend 48 (bytesToWords32 block).reverse).reverse

def round1 (r : List Nat) (kw : Nat × Nat) : List Nat :=
  match r with
  | [a, b, c, d, e, f, g, h] =>
    let t1 := (h + S1 e + ch e f g + kw.1 + kw.2) % M32
    let t2 := (S0 a + maj a b c) % M32
    [(t1 + t2) % M32, a, b, c, (d + t1) % M32, e, f, g]
  | r => r

def compress (h : List Nat) (block : List Nat) : List Nat :=
  let out := (K.zip (schedule block)).foldl round1 h
  (h.zip out).map (fun p => (p.1 + p.2) % M32)

def digestWords (msg : List Nat) : List Nat :=
  let padded := mdPad msg
  (chunks64 padded.length padded).foldl compress H0

/-- SHA-256 digest of a byte list, as 32 bytes. -/
def hash (msg : List Nat) : List Nat :=
  ((digestWords msg).map
    (fun w => [(w >>> 24) % 256, (w >>> 16) % 256, (w >>> 8) % 256, w % 256])).flatten

end SHA256

namespace SHA1

/-- The five SHA-1 initial hash values (RFC 3174 §6.1), in decimal. -/
def H0 : List Nat := [1732584193, 4023233417, 2562383102, 271733878, 3285377520]

/-- Message-schedule extension; `ws` holds the words produced so far, most
recent first. -/
def extend : Nat → List Nat → List Nat
  | 0, ws => ws
  | n + 1, ws =>
    extend n
      ((rotl32 (ws.getD 2 0 ^^^ ws.getD 7 0 ^^^ ws.getD 13 0 ^^^ ws.getD 15 0) 1) :: ws)

def schedule (block : List Nat) : List Nat :=
  (extend 64 (bytesToWords32 block).reverse).reverse

def fk (i b c d : Nat) : Nat × Nat :=
  if i < 20 then ((b &&& c) ||| ((b ^^^ 0xffffffff) &&& d), 0x5A827999)
  else if i < 40 then (b ^^^ c ^^^ d, 0x6ED9EBA1)
  else if i < 60 then ((b &&& c) ||| (b &&& d) ||| (c &&& d), 0x8F1BBCDC)
  else (b ^^^ c ^^^ d, 0xCA62C1D6)

def round1 (r : List Nat) (iw : Nat × Nat) : List Nat :=
  match r with
  | [a, b, c, d, e] =>
    let p := fk iw.1 b c d
    [(rotl32 a 5 + p.1 + e + p.2 + iw.2) % M32, a, rotl32 b 30, c, d]
  | r => r

def compress (h : List Nat) (block : List Nat) : List Nat :=
  let out := (schedule block).enum.foldl round1 h
  (h.zip out).map (fun p => (p.1 + p.2) % M32)

def digestWords (msg : List Nat) : List Nat :=
  let padded := mdPad msg
  (chunks64 padded.length padded).foldl compress H0

/-- SHA-1 digest of a byte list, as 20 bytes. -/
def hash (msg : List Nat) : List Nat :=
  ((digestWords msg).map
    (fun w => [(w >>> 24) % 256, (w >>> 16) % 256, (w >>> 8) % 256, w % 256])).flatten

end SHA1

/-- HMAC over a Merkle–Damgård hash with a 64-byte block size (RFC 2104),
matching Node `crypto.createHmac(...).update(msg).digest()`. -/
def hmac (hashFn : List Nat → List Nat) (key msg : List Nat) : List Nat :=
  let k0 := if key.length > 64 then hashFn key else key
  let kp := k0 ++ List.replicate (64 - k0.length) 0
  hashFn ((kp.map (· ^^^ 0x5c)) ++ hashFn ((kp.map (· ^^^ 0x36)) ++ msg))

/-- Node `crypto.timingSafeEqual(a, b)`: throws a `RangeError` when the byte
lengths differ; otherwise compares all byte pairs unconditionally by
accumulating XOR differences (the constant-time discipline — no early exit). -/
def timingSafeEqual (a b : List Nat) : Except String Bool :=
  if a.length = b.length then
    .ok (((a.zip b).foldl (fun acc p => acc ||| (p.1 ^^^ p.2)) 0) == 0)
  else .error "Input buffers must have the same byte length"

/-! ### Webhook data model (src/webhooks/types.ts, src/api/types.ts) -/

/-- The `"hmac-sha256" | "hmac-sha1"` string union. -/
inductive SignatureMethod
  | hmacSha256
  | hmacSha1
deriving DecidableEq, Repr

inductive BackoffStrategy
  | linear
  | exponential
deriving DecidableEq, Repr

structure RetryPolicy where
  maxRetries : Nat
  backoffStrategy : BackoffStrategy
  baseDelay : ℚ
  maxDelay : ℚ
deriving DecidableEq, Repr

structure WebhookConfig where
  endpoint : String
  secret : Option String := none
  events : List String
  signatureHeader : Option String := none
  signatureMethod : Option SignatureMethod := none
  retryPolicy : Option RetryPolicy := none
deriving DecidableEq, Repr

/-- Model of a truthy parsed webhook `body: any`: whether it is an object,
and the four conventional event-name fields the classifier inspects (a field
absent from the JSON is `none`). An absent/falsy body is `Option JsonBody`s
`none` at the use sites. -/
structure JsonBody where
  isObject : Bool := true
  event_type : Option String := none
  type : Option String := none
  action : Option String := none
  event : Option String := none
deriving DecidableEq, Repr

/-- One inbound delivery envelope. `rawBody` is modelled as the string form
(`typeof rawBody === "string" ? rawBody : rawBody.toString()` makes the two
source representations coincide). `timestamp` is epoch milliseconds. -/
structure WebhookPayload where
  headers : Option (List (String × String))
  body : Option JsonBody
  rawBody : String
  timestamp : ℚ
  signature : Option String := none
deriving DecidableEq, Repr

structure WebhookValidationResult where
  isValid : Bool
  error : Option String := none
  event : Option String := none
deriving DecidableEq, Repr

/-! ### Signature validators (src/webhooks/validator.ts, lines 146-176) -/

namespace HmacSha256Validator

/-- `generate`: `sha256=` followed by the lowercase hex HMAC-SHA256 digest of
the payload under the secret. -/
def generate (payload secret : String) : String :=
  "sha256=" ++ bytesToHex (hmac SHA256.hash (utf8Bytes secret) (utf8Bytes payload))

/-- `validate`: recompute the expected signature and compare with
`crypto.timingSafeEqual` over the UTF-8 bytes of the two strings. Throws
(`Except.error`) when the byte lengths differ, as `timingSafeEqual` does. -/
def validate (payload signature secret : String) : Except String Bool :=
  timingSafeEqual (utf8Bytes signature) (utf8Bytes (generate payload secret))

end HmacSha256Validator

namespace HmacSha1Validator

/-- `generate`: `sha1=` followed by the lowercase hex HMAC-SHA1 digest. -/
def generate (payload secret : String) : String :=
  "sha1=" ++ bytesToHex (hmac SHA1.hash (utf8Bytes secret) (utf8Bytes payload))

/-- `validate`: as for SHA-256, via `crypto.timingSafeEqual`. -/
def validate (payload signature secret : String) : Except String Bool :=
  timingSafeEqual (utf8Bytes signature) (utf8Bytes (generate payload secret))

end HmacSha1Validator

namespace WebhookValidator

/-- Dispatch on the signature method. In the source this is a `Map` lookup
over exactly these two keys; because `SignatureMethod` is a closed union the
`Unsupported signature method` throw for a missing entry is unreachable. -/
def sigValidate (m : SignatureMethod) (payload signature secret : String) : Except String Bool :=
  match m with
  | .hmacSha256 => HmacSha256Validator.validate payload signature secret
  | .hmacSha1 => HmacSha1Validator.validate payload signature secret

/-- The ordered list of well-known event-name headers (validator.ts 104-110). -/
def eventHeaders : List String :=
  ["x-github-event", "x-gitlab-event", "x-event-key", "x-event-type", "event-type"]

/-- First truthy value among the event headers (the `for` loop of
`extractEventType`). -/
def findHeaderEvent : List String → List (String × String) → Option String
  | [], _ => none
  | h :: rest, hdrs =>
    let event := lookupA hdrs (jsToLower h)
    if optTruthy event then event else findHeaderEvent rest hdrs

/-- `extractEventType` (validator.ts 99-130): scan the well-known headers in
order, then fall back to the `event_type`/`type`/`action`/`event` body-field
`||` chain of a truthy object body. (The config parameter is accepted and
ignored, as in the source.) -/
def extractEventType (payload : WebhookPayload) (_config : WebhookConfig) : Option String :=
  let fromHeaders := findHeaderEvent eventHeaders (payload.headers.getD [])
  if fromHeaders.isSome then fromHeaders
  else
    match payload.body with
    | some b =>
      if b.isObject then jsOr b.event_type (jsOr b.type (jsOr b.action b.event)) else none
    | none => none

/-- `validateSignature` (validator.ts 75-97): read the signature from the
named (lowercased) header; a falsy value is a plain `false`; otherwise
delegate to the per-method validator over the raw body. The result is in
`Except` because `timingSafeEqual` can throw. -/
def validateSignature (payload : WebhookPayload) (secret : String) (method : SignatureMethod)
    (signatureHeader : String) : Except String Bool :=
  let receivedSignature := lookupA (payload.headers.getD []) (jsToLower signatureHeader)
  if !optTruthy receivedSignature then .ok false
  else sigValidate method payload.rawBody (receivedSignature.getD "") secret

/-- The signature step of `validate` (validator.ts 34-48): run only when the
config has a truthy secret and the payload carries a truthy signature;
otherwise pass. -/
def signatureCheck (payload : WebhookPayload) (config : WebhookConfig) : Except String Bool :=
  if optTruthy config.secret && optTruthy payload.signature then
    validateSignature payload (config.secret.getD "")
      (config.signatureMethod.getD .hmacSha256)
      (jsOrStr config.signatureHeader "x-hub-signature-256")
  else .ok true

/-- The body of `validate` before the surrounding `try`/`catch`
(validator.ts 24-64). -/
def validateCore (payload : WebhookPayload) (config : WebhookConfig) :
    Except String WebhookValidationResult := do
  if !(payload.body.isSome && payload.headers.isSome) then
    return { isValid := false, error := some "Missing required payload data" }
  let sigOk ← signatureCheck payload config
  if !sigOk then
    return { isValid := false, error := some "Invalid signature" }
  let event := extractEventType payload config
  if config.events.length > 0 && optTruthy event && !config.events.contains (event.getD "") then
    return { isValid := false, error := some ("Unsupported event type: " ++ event.getD "") }
  return { isValid := true, event := event }

/-- `WebhookValidator.validate` (validator.ts 20-73): the core with the
`catch` that turns any thrown error into an invalid verdict carrying
`Validation error: <message>`. -/
def validate (payload : WebhookPayload) (config : WebhookConfig) : WebhookValidationResult :=
  match validateCore payload config with
  | .ok r => r
  | .error msg => { isValid := false, error := some ("Validation error: " ++ msg) }

end WebhookValidator

/-! ### Webhook processor (src/webhooks/processor.ts) -/

structure IntegrationError where
  code : String
  message : String
  retryable : Option Bool := none
deriving DecidableEq, Repr

/-- Result envelope of `process`/`retry`. The opaque `data?: any` passthrough
field is not modelled: the core never constructs or inspects it. -/
structure WebhookProcessingResult where
  success : Bool
  event : Option String := none
  error : Option IntegrationError := none
  shouldRetry : Option Bool := none
deriving DecidableEq, Repr

inductive DeliveryStatus
  | pending
  | delivered
  | failed
  | retrying
deriving DecidableEq, Repr

structure WebhookRetryAttempt where
  attempt : Nat
  timestamp : ℚ
  error : String
  nextRetry : Option ℚ := none
deriving DecidableEq, Repr

structure WebhookDelivery where
  id : String
  url : String
  event : String
  payload : Option JsonBody
  headers : Option (List (String × String))
  timestamp : ℚ
  status : DeliveryStatus
  attempts : List WebhookRetryAttempt
deriving DecidableEq, Repr

/-- Caller-supplied context; the processor threads it through to handlers
unchanged and never inspects it, so a minimal model suffices. -/
structure IntegrationContext where
  userId : Option String := none
  organizationId : Option String := none
  installationId : Option String := none
deriving DecidableEq, Repr

/-- Outcome of awaiting a registered handler: a returned result, or a
thrown/rejected error carrying its message. -/
inductive HandlerOutcome
  | ok (r : WebhookProcessingResult)
  | thrown (msg : String)

def WebhookHandler : Type := WebhookPayload → IntegrationContext → HandlerOutcome

/-- Per-instance mutable state of a `WebhookProcessor`: the event-handler
registry and the delivery store (a `Map` keyed by delivery id). -/
structure ProcessorState where
  eventHandlers : List (String × WebhookHandler)
  deliveries : List (String × WebhookDelivery)

namespace WebhookProcessor

/-- `on` (processor.ts 25-33); named `onEvent` here because `on` collides
with a Mathlib infix operator. -/
def onEvent (event : String) (handler : WebhookHandler) (s : ProcessorState) : ProcessorState :=
  { s with eventHandlers := setA s.eventHandlers event handler }

/-- `getDefaultRetryPolicy` (processor.ts 249-256). -/
def getDefaultRetryPolicy : RetryPolicy :=
  { maxRetries := 3, backoffStrategy := .exponential, baseDelay := 1000, maxDelay := 60000 }

/-- `calculateRetryDelay` (processor.ts 258-267). `rand` is the
`Math.random()` draw, an oracle input in `[0, 1)`. -/
def calculateRetryDelay (rand : ℚ) (attempt : Nat) (policy : RetryPolicy) : ℚ :=
  if policy.backoffStrategy = .linear then
    min (policy.baseDelay * (attempt + 1)) policy.maxDelay
  else
    let exponentialDelay := policy.baseDelay * 2 ^ attempt
    let jitter := rand * (1 / 10) * exponentialDelay
    min (exponentialDelay + jitter) policy.maxDelay

/-- `process` (processor.ts 38-138), with the environment draws explicit:
`freshId` is the `generateDeliveryId()` result for this call (in the source
`delivery_<Date.now()>_<random base36>`), `now` the `new Date()` instant.
Besides the result and the updated state it reports which key, if any, was
written into the delivery store — determined by the source control flow (a
record is written exactly when a handler was invoked), and needed to express
the `Map` reference semantics inside `retry`. -/
def processFull (freshId : String) (now : ℚ) (payload : WebhookPayload) (config : WebhookConfig)
    (ctx : IntegrationContext) (s : ProcessorState) :
    WebhookProcessingResult × ProcessorState × Option String :=
  let validationResult := WebhookValidator.validate payload config
  if !validationResult.isValid then
    ({ success := false,
       error := some { code := "VALIDATION_FAILED",
                       message := jsOrStr validationResult.error "Webhook validation failed",
                       retryable := some false } }, s, none)
  else if !optTruthy validationResult.event then
    ({ success := false,
       error := some { code := "NO_EVENT_TYPE",
                       message := "Could not determine event type from webhook payload",
                       retryable := some false } }, s, none)
  else
    let event := validationResult.event.getD ""
    match jsOrOpt (lookupA s.eventHandlers event) (lookupA s.eventHandlers "*") with
    | none =>
      ({ success := false,
         error := some { code := "NO_HANDLER",
                         message := "No handler registered for event: " ++ event,
                         retryable := some false } }, s, none)
    | some handler =>
      match handler payload ctx with
      | .ok result =>
        let delivery : WebhookDelivery :=
          { id := freshId, url := config.endpoint, event := event, payload := payload.body,
            headers := payload.headers, timestamp := payload.timestamp,
            status := if result.success then .delivered else .failed,
            attempts := [{ attempt := 1, timestamp := now,
                           error := jsOrStr (result.error.map (·.message)) "" }] }
        (result, { s with deliveries := setA s.deliveries freshId delivery }, some freshId)
      | .thrown msg =>
        let processingError : IntegrationError :=
          { code := "PROCESSING_ERROR", message := msg, retryable := some true }
        let delivery : WebhookDelivery :=
          { id := freshId, url := config.endpoint, event := event, payload := payload.body,
            headers := payload.headers, timestamp := payload.timestamp,
            status := .failed,
            attempts := [{ attempt := 1, timestamp := now, error := processingError.message }] }
        ({ success := false, error := some processingError, shouldRetry := some true },
         { s with deliveries := setA s.deliveries freshId delivery }, some freshId)

/-- `process` as the caller sees it: result and updated state. -/
def process (freshId : String) (now : ℚ) (payload : WebhookPayload) (config : WebhookConfig)
    (ctx : IntegrationContext) (s : ProcessorState) :
    WebhookProcessingResult × ProcessorState :=
  let r := processFull freshId now payload config ctx s
  (r.1, r.2.1)

/-- `retry` (processor.ts 143-225). `rand` is the jitter draw, `freshId` the
delivery id the inner `process` call will generate, `now` the clock reading.
The local `delivery` variable aliases the map entry, so the `status`
assignments and the `attempts.push` are visible through the store unless the
inner `process` overwrote that exact key (possible only on a generated-id
collision with `deliveryId`); the `recordedId` component of `processFull`
decides that. The source `catch` arm (`RETRY_FAILED`) is unreachable here
because the embedded `process` is total. -/
def retry (rand : ℚ) (freshId : String) (now : ℚ) (deliveryId : String)
    (payload : WebhookPayload) (config : WebhookConfig) (ctx : IntegrationContext)
    (s : ProcessorState) : WebhookProcessingResult × ProcessorState :=
  match lookupA s.deliveries deliveryId with
  | none =>
    ({ success := false,
       error := some { code := "DELIVERY_NOT_FOUND",
                       message := "Delivery " ++ deliveryId ++ " not found",
                       retryable := some false } }, s)
  | some delivery =>
    let retryPolicy := config.retryPolicy.getD getDefaultRetryPolicy
    let attemptCount := delivery.attempts.length
    if attemptCount ≥ retryPolicy.maxRetries then
      ({ success := false,
         error := some { code := "MAX_RETRIES_EXCEEDED",
                         message := "Maximum retry attempts (" ++ toString retryPolicy.maxRetries
                           ++ ") exceeded",
                         retryable := some false } },
       { s with deliveries := setA s.deliveries deliveryId { delivery with status := .failed } })
    else
      let delay := calculateRetryDelay rand attemptCount retryPolicy
      -- `await this.sleep(delay)` suspends; no state effect.
      let d0 := { delivery with status := DeliveryStatus.retrying }
      let s1 := { s with deliveries := setA s.deliveries deliveryId d0 }
      let pr := processFull freshId now payload config ctx s1
      let result := pr.1
      let s2 := pr.2.1
      let newAttempt : WebhookRetryAttempt :=
        { attempt := attemptCount + 1, timestamp := now,
          error := jsOrStr (result.error.map (·.message)) "",
          nextRetry := if jsBoolTruthy result.shouldRetry then some (now + delay) else none }
      let d1 := { d0 with attempts := d0.attempts ++ [newAttempt] }
      let d2 :=
        if result.success then { d1 with status := DeliveryStatus.delivered }
        else if !jsBoolTruthy result.shouldRetry then { d1 with status := DeliveryStatus.failed }
        else d1
      let s3 :=
        if pr.2.2 = some deliveryId then s2
        else { s2 with deliveries := setA s2.deliveries deliveryId d2 }
      (result, s3)

/-- `getDelivery` (processor.ts 230-232). -/
def getDelivery (deliveryId : String) (s : ProcessorState) : Option WebhookDelivery :=
  lookupA s.deliveries deliveryId

end WebhookProcessor

/-! ### OAuth providers (src/oauth/provider.ts, providers/github.ts,
providers/custom.ts, integration.ts) -/

structure OAuthConfig where
  clientId : String
  clientSecret : Option String := none
  redirectUri : String
  scopes : List String
  authUrl : Option String := none
  tokenUrl : Option String := none
  userInfoUrl : Option String := none
  usePKCE : Option Bool := none
deriving DecidableEq, Repr

/-- Per-authorization-attempt state. The free-form `metadata` bag is not
modelled (opaque pass-through). -/
structure OAuthState where
  state : String
  codeVerifier : Option String := none
  redirectUri : String
  scopes : List String
  userId : Option String := none
deriving DecidableEq, Repr

structure OAuthAuthorizationResult where
  authorizationUrl : String
  state : String
  codeVerifier : Option String := none
deriving DecidableEq, Repr

structure PKCEChallenge where
  codeVerifier : String
  codeChallenge : String
  codeChallengeMethod : String
deriving DecidableEq, Repr

/-- Base64url alphabet (RFC 4648 §5). -/
def b64uChar (n : Nat) : Char :=
  "ABCDEFGHIJKLMNOPQRSTUVWXYZabcdefghijklmnopqrstuvwxyz0123456789-_".data.getD n 'A'

/-- Base64url encoding without padding (Node `toString("base64url")`). -/
def b64uChunks : List Nat → List Char
  | b0 :: b1 :: b2 :: rest =>
    [b64uChar (b0 >>> 2), b64uChar (((b0 &&& 3) <<< 4) ||| (b1 >>> 4)),
     b64uChar (((b1 &&& 15) <<< 2) ||| (b2 >>> 6)), b64uChar (b2 &&& 63)] ++ b64uChunks rest
  | [b0, b1] =>
    [b64uChar (b0 >>> 2), b64uChar (((b0 &&& 3) <<< 4) ||| (b1 >>> 4)),
     b64uChar ((b1 &&& 15) <<< 2)]
  | [b0] => [b64uChar (b0 >>> 2), b64uChar ((b0 &&& 3) <<< 4)]
  | [] => []

def base64url (bs : List Nat) : String := ⟨b64uChunks bs⟩

namespace OAuthProvider

/-- `generateState` (provider.ts 93-95): `crypto.randomBytes(16)` rendered as
hex. The 16 random bytes are the oracle input `rnd`. -/
def generateState (rnd : List Nat) : String := bytesToHex rnd

/-- `generatePKCEChallenge` (provider.ts 79-91): verifier = 32 random bytes
base64url-encoded; challenge = base64url(SHA-256(verifier)); method S256. -/
def generatePKCEChallenge (rnd : List Nat) : PKCEChallenge :=
  let codeVerifier := base64url rnd
  { codeVerifier := codeVerifier,
    codeChallenge := base64url (SHA256.hash (utf8Bytes codeVerifier)),
    codeChallengeMethod := "S256" }

/-- `buildAuthUrl` (provider.ts 97-106): append the params as a query string.
The `URL` API's percent-encoding is not modelled; no claim depends on it. -/
def buildAuthUrl (baseUrl : String) (params : List (String × String)) : String :=
  baseUrl ++ "?" ++ String.intercalate "&" (params.map (fun p => p.1 ++ "=" ++ p.2))

end OAuthProvider

namespace GitHubOAuth

def AUTH_URL : String := "https://github.com/login/oauth/authorize"

def TOKEN_URL : String := "https://github.com/login/oauth/access_token"

def USER_URL : String := "https://api.github.com/user"

/-- The constructor (github.ts 17-26): fill the endpoint URLs with the GitHub
defaults when the supplied config leaves them out. -/
def mkConfig (config : OAuthConfig) : OAuthConfig :=
  { config with
    authUrl := some (jsOrStr config.authUrl AUTH_URL),
    tokenUrl := some (jsOrStr config.tokenUrl TOKEN_URL),
    userInfoUrl := some (jsOrStr config.userInfoUrl USER_URL) }

/-- `getAuthorizationUrl` (github.ts 28-57). `rndState` is the 16-byte draw
behind `generateState()`, `rndVerifier` the 32-byte draw behind the PKCE
verifier (consumed only when `usePKCE` is truthy). The caller-supplied
`state` object contributes only `redirectUri` and `scopes`; its `state`
field is never read. -/
def getAuthorizationUrl (config : OAuthConfig) (rndState rndVerifier : List Nat)
    (state : OAuthState) : OAuthAuthorizationResult :=
  let cfg := mkConfig config
  let authState := OAuthProvider.generateState rndState
  let baseParams :=
    [("client_id", cfg.clientId), ("redirect_uri", state.redirectUri),
     ("scope", String.intercalate " " state.scopes), ("state", authState),
     ("response_type", "code")]
  if jsBoolTruthy cfg.usePKCE then
    let pkce := OAuthProvider.generatePKCEChallenge rndVerifier
    { authorizationUrl := OAuthProvider.buildAuthUrl (cfg.authUrl.getD "")
        (baseParams ++ [("code_challenge", pkce.codeChallenge),
                        ("code_challenge_method", pkce.codeChallengeMethod)]),
      state := authState,
      codeVerifier := some pkce.codeVerifier }
  else
    { authorizationUrl := OAuthProvider.buildAuthUrl (cfg.authUrl.getD "") baseParams,
      state := authState }

end GitHubOAuth

/-- A constructed custom provider (custom.ts). -/
structure CustomOAuth where
  name : String
  config : OAuthConfig
deriving DecidableEq, Repr

namespace CustomOAuth

/-- The `CustomOAuth` constructor (custom.ts 10-16): requires truthy
`authUrl` and `tokenUrl` before calling `super`, else throws a configuration
error. The base-class constructor only builds a local HTTP client object —
no network request is involved in construction. -/
def construct (name : String) (config : OAuthConfig) : Except String CustomOAuth :=
  if !optTruthy config.authUrl || !optTruthy config.tokenUrl then
    .error "Custom OAuth provider requires authUrl and tokenUrl"
  else .ok { name := name, config := config }

end CustomOAuth

/-- The `{authUrl, state}` payload `initializeOAuth` returns on success. -/
structure InitOAuthData where
  authUrl : String
  state : String
deriving DecidableEq, Repr

structure IntegrationResult where
  success : Bool
  data : Option InitOAuthData := none
  error : Option IntegrationError := none
deriving DecidableEq, Repr

namespace Integration

/-- `Integration.initializeOAuth` (integration.ts 54-102) for an integration
whose configured provider is GitHub. `integrationStateToken` stands for the
private `generateState()` draw of the Integration facade
(`Math.random().toString(36)... + Date.now().toString(36)`) — the value the
provider then ignores; `rndState`/`rndVerifier` are the provider's own
draws. `emitEvent` only notifies subscribers (exceptions swallowed) and
cannot alter the returned result, so it has no model here. -/
def initializeOAuth (oauthCfg : OAuthConfig) (integrationStateToken : String)
    (rndState rndVerifier : List Nat) (ctx : IntegrationContext) : IntegrationResult :=
  let providerResult := GitHubOAuth.getAuthorizationUrl oauthCfg rndState rndVerifier
    { state := integrationStateToken, redirectUri := oauthCfg.redirectUri,
      scopes := oauthCfg.scopes, userId := ctx.userId }
  { success := true,
    data := some { authUrl := providerResult.authorizationUrl, state := providerResult.state } }

end Integration

/-! ### Retry driver and concrete scenario fixtures

The core computes delays and records attempts but never self-schedules; an
external caller owns the retry loop (spec §4.3). `retryN` is that driver:
it feeds `retry` one fresh generated id per call. The `demo*` fixtures are
concrete instances used by counterexamples and witnesses. -/

/-- Drive `retry` once per id in `ids` against the same delivery. -/
def retryN (rand now : ℚ) (deliveryId : String) (payload : WebhookPayload)
    (config : WebhookConfig) (ctx : IntegrationContext) :
    List String → ProcessorState → ProcessorState
  | [], s => s
  | f :: rest, s =>
    retryN rand now deliveryId payload config ctx rest
      (WebhookProcessor.retry rand f now deliveryId payload config ctx s).2

/-- A handler that returns a failed, retryable result. -/
def demoHandler : WebhookHandler := fun _ _ =>
  .ok { success := false,
        error := some { code := "HANDLER_FAILED", message := "boom", retryable := some true },
        shouldRetry := some true }

/-- Processor with `demoHandler` registered for `push` and no deliveries. -/
def demoState : ProcessorState := ⟨[("push", demoHandler)], []⟩

/-- A payload classified as `push` via the GitHub event header; no secret or
signature involved. -/
def demoPayload : WebhookPayload :=
  { headers := some [("x-github-event", "push")], body := some {}, rawBody := "hello",
    timestamp := 0 }

/-- Config with an explicit one-retry policy. -/
def demoConfig1 : WebhookConfig :=
  { endpoint := "https://app.example/hook", events := [],
    retryPolicy := some { maxRetries := 1, backoffStrategy := .linear,
                          baseDelay := 1000, maxDelay := 5000 } }

/-- Config with no retry policy (the processor default applies). -/
def demoConfig0 : WebhookConfig :=
  { endpoint := "https://app.example/hook", events := [] }

def demoCtx : IntegrationContext := {}

/-- A delivery that has had its initial processing attempt. -/
def demoDelivery : WebhookDelivery :=
  { id := "d1", url := "https://app.example/hook", event := "push", payload := some {},
    headers := some [("x-github-event", "push")], timestamp := 0, status := .failed,
    attempts := [{ attempt := 1, timestamp := 0, error := "boom" }] }

deriving instance DecidableEq for Except

/-! ## Theorems

First, sanity checks pinning the embedded crypto primitives to the published
test vectors (FIPS 180 / RFC 2202 / RFC 4231), so that every later statement
about signatures is about the real functions. -/

theorem sha256_vector_abc :
    bytesToHex (SHA256.hash (utf8Bytes "abc")) =
      "ba7816bf8f01cfea414140de5dae2223b00361a396177a9cb410ff61f20015ad" := by decide

theorem sha256_vector_empty :
    bytesToHex (SHA256.hash (utf8Bytes "")) =
      "e3b0c44298fc1c149afbf4c8996fb92427ae41e4649b934ca495991b7852b855" := by decide

theorem sha1_vector_abc :
    bytesToHex (SHA1.hash (utf8Bytes "abc")) = "a9993e364706816aba3e25717850c26c9cd0d89d" := by
  decide

theorem hmac_sha256_vector :
    bytesToHex (hmac SHA256.hash (utf8Bytes "key")
        (utf8Bytes "The quick brown fox jumps over the lazy dog")) =
      "f7bc83f430538424b13298e6aa6fb143ef4d59a14946175997479dbc2d1a3cd8" := by decide

theorem hmac_sha1_vector :
    bytesToHex (hmac SHA1.hash (utf8Bytes "key")
        (utf8Bytes "The quick brown fox jumps over the lazy dog")) =
      "de7c9b85b8b78aa6bc8a7a36f70a90701c9db4d9" := by decide

/-! Association-list (JS `Map`) lemmas. -/

theorem lookupA_setA_self {α : Type} (l : List (String × α)) (k : String) (v : α) :
    lookupA (setA l k v) k = some v := by
  induction l with
  | nil => simp [lookupA, setA]
  | cons p t ih =>
    by_cases h : p.1 = k
    · simp [lookupA, setA, h]
    · simp [lookupA, setA, h, ih]

theorem lookupA_setA_ne {α : Type} (l : List (String × α)) (k k2 : String) (v : α)
    (hne : k2 ≠ k) : lookupA (setA l k v) k2 = lookupA l k2 := by
  induction l with
  | nil => simp [lookupA, setA, Ne.symm hne]
  | cons p t ih =>
    by_cases h : p.1 = k
    · simp [lookupA, setA, h, Ne.symm hne]
    · simp only [setA, if_neg h, lookupA]
      by_cases h2 : p.1 = k2
      · simp [h2]
      · simp [h2, ih]

theorem length_setA_present {α : Type} (l : List (String × α)) (k : String) (v : α)
    (h : (lookupA l k).isSome) : (setA l k v).length = l.length := by
  induction l with
  | nil => simp [lookupA] at h
  | cons p t ih =>
    by_cases hp : p.1 = k
    · simp [setA, hp]
    · simp only [lookupA, if_neg hp] at h
      simp [setA, hp, ih h]

theorem length_setA_absent {α : Type} (l : List (String × α)) (k : String) (v : α)
    (h : lookupA l k = none) : (setA l k v).length = l.length + 1 := by
  induction l with
  | nil => simp [setA]
  | cons p t ih =>
    by_cases hp : p.1 = k
    · simp [lookupA, hp] at h
    · simp only [lookupA, if_neg hp] at h
      simp [setA, hp, ih h]

/-! Reduction lemmas for the `Except` monad operations appearing in the
desugared `do` blocks. -/

theorem except_bind_ok {ε α β : Type} (a : α) (f : α → Except ε β) :
    (Except.ok a >>= f : Except ε β) = f a := rfl

theorem except_bind_error {ε α β : Type} (e : ε) (f : α → Except ε β) :
    (Except.error e >>= f : Except ε β) = Except.error e := rfl

theorem except_pure {ε α : Type} (a : α) : (pure a : Except ε α) = Except.ok a := rfl

/-! Lemmas about the constant-time comparison. -/

theorem nat_or_eq_zero_iff (a b : Nat) : a ||| b = 0 ↔ a = 0 ∧ b = 0 := by
  constructor
  · intro h
    have key : ∀ i, a.testBit i = false ∧ b.testBit i = false := by
      intro i
      have hc := congrArg (fun n => n.testBit i) h
      simpa [Nat.testBit_or] using hc
    exact ⟨Nat.eq_of_testBit_eq (fun i => by simp [(key i).1]),
           Nat.eq_of_testBit_eq (fun i => by simp [(key i).2])⟩
  · rintro ⟨rfl, rfl⟩
    rfl

theorem foldl_or_xor_eq_zero (l : List (Nat × Nat)) (acc : Nat) :
    l.foldl (fun a p => a ||| (p.1 ^^^ p.2)) acc = 0 ↔ acc = 0 ∧ ∀ p ∈ l, p.1 = p.2 := by
  induction l generalizing acc with
  | nil => simp
  | cons p t ih =>
    rw [List.foldl_cons, ih]
    constructor
    · rintro ⟨hz, hrest⟩
      rw [nat_or_eq_zero_iff] at hz
      exact ⟨hz.1, by
        intro q hq
        rcases List.mem_cons.mp hq with h | h
        · subst h; exact Nat.xor_eq_zero.mp hz.2
        · exact hrest q h⟩
    · rintro ⟨hz, hall⟩
      refine ⟨?_, fun q hq => hall q (List.mem_cons_of_mem _ hq)⟩
      rw [nat_or_eq_zero_iff]
      exact ⟨hz, Nat.xor_eq_zero.mpr (hall p (List.mem_cons_self _ _))⟩

theorem fst_eq_snd_of_mem_zip_self {a : List Nat} {p : Nat × Nat} (h : p ∈ a.zip a) :
    p.1 = p.2 := by
  induction a with
  | nil => simp [List.zip] at h
  | cons x t ih =>
    rcases List.mem_cons.mp (by simpa using h) with h1 | h1
    · rw [h1]
    · exact ih h1

theorem zip_eq_of_forall {a b : List Nat} (hlen : a.length = b.length)
    (h : ∀ p ∈ a.zip b, p.1 = p.2) : a = b := by
  induction a generalizing b with
  | nil => cases b <;> simp_all
  | cons x t ih =>
    cases b with
    | nil => simp at hlen
    | cons y r =>
      have hx : x = y := h (x, y) (by simp)
      have ht : t = r := ih (by simpa using hlen) (fun p hp => h p (by simp [hp]))
      rw [hx, ht]

/-- The embedded `timingSafeEqual` decides byte-list equality when the
lengths match (and, by inspecting all pairs unconditionally, does so without
an early exit — the constant-time discipline). -/
theorem timingSafeEqual_ok_true_iff (a b : List Nat) (hlen : a.length = b.length) :
    timingSafeEqual a b = .ok true ↔ a = b := by
  unfold timingSafeEqual
  rw [if_pos hlen]
  constructor
  · intro h
    have hz : ((a.zip b).foldl (fun acc p => acc ||| (p.1 ^^^ p.2)) 0) = 0 := by
      by_contra hnz
      simp [beq_iff_eq, hnz] at h
    have := (foldl_or_xor_eq_zero _ 0).mp hz
    exact zip_eq_of_forall hlen this.2
  · intro h
    subst h
    have hz : ((a.zip a).foldl (fun acc p => acc ||| (p.1 ^^^ p.2)) 0) = 0 :=
      (foldl_or_xor_eq_zero _ 0).mpr ⟨rfl, fun _ hp => fst_eq_snd_of_mem_zip_self hp⟩
    simp [hz]

/-- A length mismatch makes `timingSafeEqual` throw, never return. -/
theorem timingSafeEqual_error_of_length_ne (a b : List Nat) (hlen : a.length ≠ b.length) :
    timingSafeEqual a b = .error "Input buffers must have the same byte length" := by
  unfold timingSafeEqual
  rw [if_neg hlen]

/-! ### Claims -/

/-- C10: constructing a custom OAuth provider whose config lacks a (truthy)
`tokenUrl`, or lacks an `authUrl`, fails immediately at construction with the
configuration error. Construction is pure — the guard precedes everything
and no network operation exists in the constructor path. -/
theorem C10_custom_provider_requires_urls (name : String) (config : OAuthConfig)
    (h : optTruthy config.tokenUrl = false ∨ optTruthy config.authUrl = false) :
    CustomOAuth.construct name config =
      .error "Custom OAuth provider requires authUrl and tokenUrl" := by
  unfold CustomOAuth.construct
  rcases h with h | h <;> simp [h]

/-- C10 witness: a config with an auth URL but no token URL is rejected. -/
theorem C10_witness :
    CustomOAuth.construct "acme"
      { clientId := "id", redirectUri := "https://app.example/cb", scopes := ["read"],
        authUrl := some "https://auth.example/authorize" } =
      .error "Custom OAuth provider requires authUrl and tokenUrl" :=
  C10_custom_provider_requires_urls "acme"
    { clientId := "id", redirectUri := "https://app.example/cb", scopes := ["read"],
      authUrl := some "https://auth.example/authorize" } (Or.inl (by decide))

/-- Event classification ignores the config argument (the source accepts and
never reads it), so it is invariant under config changes. -/
theorem extractEventType_config_irrelevant (payload : WebhookPayload)
    (c1 c2 : WebhookConfig) :
    WebhookValidator.extractEventType payload c1 =
      WebhookValidator.extractEventType payload c2 := rfl

/-- C7: when the payload carries no extracted signature, validation behaves
exactly as if no secret were configured — the signature step is skipped, no
rejection for the missing signature occurs, and control proceeds to event
classification. -/
theorem C7_missing_signature_is_nonfatal (payload : WebhookPayload) (config : WebhookConfig)
    (h : payload.signature = none) :
    WebhookValidator.validate payload config =
      WebhookValidator.validate payload { config with secret := none } := by
  unfold WebhookValidator.validate WebhookValidator.validateCore WebhookValidator.signatureCheck
  rw [extractEventType_config_irrelevant payload { config with secret := none } config]
  simp [h, optTruthy]

/-- C7 witness: a secret-bearing config and a signature-less payload validate
like the secret-less config (and, concretely, succeed). -/
theorem C7_witness :
    WebhookValidator.validate
        { headers := some [("x-github-event", "push")], body := some {}, rawBody := "hello",
          timestamp := 0, signature := none }
        { endpoint := "https://app.example/hook", secret := some "s3cr3t", events := ["push"] } =
      WebhookValidator.validate
        { headers := some [("x-github-event", "push")], body := some {}, rawBody := "hello",
          timestamp := 0, signature := none }
        { endpoint := "https://app.example/hook", secret := none, events := ["push"] } :=
  C7_missing_signature_is_nonfatal
    { headers := some [("x-github-event", "push")], body := some {}, rawBody := "hello",
      timestamp := 0, signature := none }
    { endpoint := "https://app.example/hook", secret := some "s3cr3t", events := ["push"] } rfl

/-- C5: a payload that fails validation makes `process` return a
`VALIDATION_FAILED` non-retryable failure and leaves the entire processor
state — in particular the deliveries store — unchanged. -/
theorem C5_validation_failure_records_nothing (freshId : String) (now : ℚ)
    (payload : WebhookPayload) (config : WebhookConfig) (ctx : IntegrationContext)
    (s : ProcessorState) (h : (WebhookValidator.validate payload config).isValid = false) :
    WebhookProcessor.process freshId now payload config ctx s =
      ({ success := false,
         error := some { code := "VALIDATION_FAILED",
                         message := jsOrStr (WebhookValidator.validate payload config).error
                           "Webhook validation failed",
                         retryable := some false } }, s) := by
  unfold WebhookProcessor.process WebhookProcessor.processFull
  simp [h]

/-- C5 witness: a tampered signature (last hex digit flipped) yields
`VALIDATION_FAILED` and an untouched store. -/
theorem C5_witness :
    WebhookProcessor.process "d1" 0
        { headers := some [("x-hub-signature-256",
            "sha256=6b23653f08c72072554e5dfef9b72efe01fcfe724a950689e991e7bd7089eb3f")],
          body := some {}, rawBody := "hello", timestamp := 0,
          signature := some
            "sha256=6b23653f08c72072554e5dfef9b72efe01fcfe724a950689e991e7bd7089eb3f" }
        { endpoint := "https://app.example/hook", secret := some "s3cr3t", events := [] }
        demoCtx demoState =
      ({ success := false,
         error := some { code := "VALIDATION_FAILED",
                         message := jsOrStr (WebhookValidator.validate
                           { headers := some [("x-hub-signature-256",
                               "sha256=6b23653f08c72072554e5dfef9b72efe01fcfe724a950689e991e7bd7089eb3f")],
                             body := some {}, rawBody := "hello", timestamp := 0,
                             signature := some
                               "sha256=6b23653f08c72072554e5dfef9b72efe01fcfe724a950689e991e7bd7089eb3f" }
                           { endpoint := "https://app.example/hook", secret := some "s3cr3t",
                             events := [] }).error "Webhook validation failed",
                         retryable := some false } }, demoState) :=
  C5_validation_failure_records_nothing "d1" 0
    { headers := some [("x-hub-signature-256",
        "sha256=6b23653f08c72072554e5dfef9b72efe01fcfe724a950689e991e7bd7089eb3f")],
      body := some {}, rawBody := "hello", timestamp := 0,
      signature := some
        "sha256=6b23653f08c72072554e5dfef9b72efe01fcfe724a950689e991e7bd7089eb3f" }
    { endpoint := "https://app.example/hook", secret := some "s3cr3t", events := [] }
    demoCtx demoState (by decide)

/-- C6: the backoff delay is `min(baseDelay*(n+1), maxDelay)` under the
linear strategy; under the exponential strategy it is
`min(baseDelay*2^n + jitter, maxDelay)` for a jitter in
`[0, 0.1*baseDelay*2^n]` drawn from `Math.random()` (never subtracted); and
with linear `baseDelay=1000, maxDelay=5000` the delays at indices 0..4 are
1000, 2000, 3000, 4000, 5000. Stated for nonnegative base delays (delays are
durations) and `rand` in `[0,1)` as `Math.random()` guarantees. -/
theorem C6_backoff_delays (rand : ℚ) (n : Nat) (policy : RetryPolicy)
    (h0 : 0 ≤ rand) (h1 : rand < 1) (hb : 0 ≤ policy.baseDelay) :
    (policy.backoffStrategy = .linear →
      WebhookProcessor.calculateRetryDelay rand n policy =
        min (policy.baseDelay * (n + 1)) policy.maxDelay)
    ∧ (policy.backoffStrategy = .exponential →
      ∃ jitter : ℚ, 0 ≤ jitter ∧ jitter ≤ (1 / 10) * policy.baseDelay * 2 ^ n ∧
        WebhookProcessor.calculateRetryDelay rand n policy =
          min (policy.baseDelay * 2 ^ n + jitter) policy.maxDelay)
    ∧ (∀ i : Nat, i < 5 →
      WebhookProcessor.calculateRetryDelay rand i
          { maxRetries := 3, backoffStrategy := .linear, baseDelay := 1000, maxDelay := 5000 } =
        1000 * (i + 1)) := by
  refine ⟨?_, ?_, ?_⟩
  · intro hlin
    unfold WebhookProcessor.calculateRetryDelay
    rw [if_pos hlin]
  · intro hexp
    have hE : (0 : ℚ) ≤ policy.baseDelay * 2 ^ n :=
      mul_nonneg hb (pow_nonneg (by norm_num) n)
    refine ⟨rand * (1 / 10) * (policy.baseDelay * 2 ^ n), ?_, ?_, ?_⟩
    · positivity
    · nlinarith [mul_nonneg (mul_nonneg h0 (by norm_num : (0:ℚ) ≤ 1 / 10)) hE]
    · unfold WebhookProcessor.calculateRetryDelay
      rw [if_neg (by rw [hexp]; exact fun hc => BackoffStrategy.noConfusion hc)]
  · intro i hi
    interval_cases i <;> norm_num [WebhookProcessor.calculateRetryDelay]

/-- C6 witness: at `rand = 1/2`, index 2, the linear 1000/5000 policy gives
3000; and the exponential default policy admits the promised jitter bound. -/
theorem C6_witness :
    (WebhookProcessor.calculateRetryDelay (1 / 2) 2
        { maxRetries := 3, backoffStrategy := .linear, baseDelay := 1000, maxDelay := 5000 } =
      1000 * (2 + 1))
    ∧ (∃ jitter : ℚ, 0 ≤ jitter ∧
        jitter ≤ (1 / 10) * (WebhookProcessor.getDefaultRetryPolicy).baseDelay * 2 ^ 2 ∧
        WebhookProcessor.calculateRetryDelay (1 / 2) 2 WebhookProcessor.getDefaultRetryPolicy =
          min ((WebhookProcessor.getDefaultRetryPolicy).baseDelay * 2 ^ 2 + jitter)
            (WebhookProcessor.getDefaultRetryPolicy).maxDelay) :=
  ⟨(C6_backoff_delays (1 / 2) 2
      { maxRetries := 3, backoffStrategy := .linear, baseDelay := 1000, maxDelay := 5000 }
      (by norm_num) (by norm_num) (by norm_num)).2.2 2 (by norm_num),
   (C6_backoff_delays (1 / 2) 2 WebhookProcessor.getDefaultRetryPolicy
      (by norm_num) (by norm_num)
      (by norm_num [WebhookProcessor.getDefaultRetryPolicy])).2.1 rfl⟩

/-- C2 counterexample: `HmacSha256Validator.validate` on a candidate whose
byte length differs from the expected signature throws (the `Except.error`
of `timingSafeEqual`) instead of returning `false` — refuting the claim that
the per-algorithm validators return `false` on a length mismatch. -/
theorem C2_counterexample :
    HmacSha256Validator.validate "hello" "deadbeef" "s3cr3t" =
        .error "Input buffers must have the same byte length"
      ∧ HmacSha256Validator.validate "hello" "deadbeef" "s3cr3t" ≠ .ok false := by
  constructor
  · decide
  · decide

/-- C2 (amended): a candidate signature whose byte length differs from the
expected one makes the inner `HmacSha256Validator.validate` /
`HmacSha1Validator.validate` throw (Node `timingSafeEqual` requires equal
byte lengths); the surrounding `WebhookValidator.validate` catches the
exception and turns it into an invalid verdict (`Validation error: ...`), so
at the webhook-validator level a length mismatch is a verification failure,
not an escaping exception. The comparison itself is the constant-time
XOR-accumulating one (`timingSafeEqual_ok_true_iff`). -/
theorem C2_length_mismatch_throws_and_is_caught :
    (∀ payload sig secret : String,
       (utf8Bytes sig).length ≠ (utf8Bytes (HmacSha256Validator.generate payload secret)).length →
       HmacSha256Validator.validate payload sig secret =
         .error "Input buffers must have the same byte length")
    ∧ (∀ payload sig secret : String,
       (utf8Bytes sig).length ≠ (utf8Bytes (HmacSha1Validator.generate payload secret)).length →
       HmacSha1Validator.validate payload sig secret =
         .error "Input buffers must have the same byte length")
    ∧ (∀ (payload : WebhookPayload) (config : WebhookConfig) (m : String),
       payload.body.isSome → payload.headers.isSome →
       WebhookValidator.signatureCheck payload config = .error m →
       WebhookValidator.validate payload config =
         { isValid := false, error := some ("Validation error: " ++ m) }) := by
  refine ⟨?_, ?_, ?_⟩
  · intro payload sig secret hlen
    exact timingSafeEqual_error_of_length_ne _ _ hlen
  · intro payload sig secret hlen
    exact timingSafeEqual_error_of_length_ne _ _ hlen
  · intro payload config m hb hh hs
    unfold WebhookValidator.validate WebhookValidator.validateCore
    rw [hs]
    simp [Option.isSome_iff_ne_none.mp hb, Option.isSome_iff_ne_none.mp hh,
      except_bind_error, except_pure]
    rfl

/-- C2 witness: the amended behavior at concrete inputs — the short
candidate throws in the inner validator. -/
theorem C2_witness :
    HmacSha1Validator.validate "hello" "deadbeef" "s3cr3t" =
      .error "Input buffers must have the same byte length" :=
  C2_length_mismatch_throws_and_is_caught.2.1 "hello" "deadbeef" "s3cr3t" (by decide)

/-- C4 counterexample: a config with the non-empty allow-list `["push"]` and
a payload from which no event can be classified yields a *valid* verdict
with an absent event name — refuting both that a valid verdict requires a
classified member event and that an absent-event valid verdict can occur
only with an empty allow-list. -/
theorem C4_counterexample :
    WebhookValidator.validate
        { headers := some [], body := some {}, rawBody := "x", timestamp := 0 }
        { endpoint := "https://app.example/hook", events := ["push"] } =
      { isValid := true, event := none } := by decide

/-- C4 (amended): with a non-empty allow-list, once the payload-shape and
signature steps pass, a *truthy* classified event outside the list is
rejected with `Unsupported event type: <event>` (capital U in the source), a
truthy member event yields a valid verdict carrying it — but a payload whose
classification is absent (or empty-string) bypasses the allow-list check and
is accepted with an absent event name even though the allow-list is
non-empty. -/
theorem C4_allowlist_gating (payload : WebhookPayload) (config : WebhookConfig)
    (hb : payload.body.isSome) (hh : payload.headers.isSome)
    (hs : WebhookValidator.signatureCheck payload config = .ok true)
    (hne : config.events.length > 0) :
    (optTruthy (WebhookValidator.extractEventType payload config) = true →
       ((WebhookValidator.extractEventType payload config).getD "" ∈ config.events →
         WebhookValidator.validate payload config =
           { isValid := true, event := WebhookValidator.extractEventType payload config })
       ∧ ((WebhookValidator.extractEventType payload config).getD "" ∉ config.events →
         WebhookValidator.validate payload config =
           { isValid := false,
             error := some ("Unsupported event type: " ++
               (WebhookValidator.extractEventType payload config).getD "") }))
    ∧ (optTruthy (WebhookValidator.extractEventType payload config) = false →
       WebhookValidator.validate payload config =
         { isValid := true, event := WebhookValidator.extractEventType payload config }) := by
  unfold WebhookValidator.validate WebhookValidator.validateCore
  rw [hs]
  constructor
  · intro het
    constructor
    · intro hmem
      simp [Option.isSome_iff_ne_none.mp hb, Option.isSome_iff_ne_none.mp hh, het, hmem,
        except_bind_ok, except_pure]
    · intro hmem
      simp [Option.isSome_iff_ne_none.mp hb, Option.isSome_iff_ne_none.mp hh, het, hmem, hne,
        except_bind_ok, except_pure]
  · intro het
    simp [Option.isSome_iff_ne_none.mp hb, Option.isSome_iff_ne_none.mp hh, het,
      except_bind_ok, except_pure]

/-- C4 witness: allow-list `["push"]` rejects a classified `deploy` event
with the exact message, and accepts a classified `push` event. -/
theorem C4_witness :
    WebhookValidator.validate
        { headers := some [("x-github-event", "deploy")], body := some {}, rawBody := "x",
          timestamp := 0 }
        { endpoint := "https://app.example/hook", events := ["push"] } =
      { isValid := false, error := some ("Unsupported event type: " ++ "deploy") } :=
  ((C4_allowlist_gating
      { headers := some [("x-github-event", "deploy")], body := some {}, rawBody := "x",
        timestamp := 0 }
      { endpoint := "https://app.example/hook", events := ["push"] }
      (by decide) (by decide) (by decide) (by decide)).1 (by decide)).2 (by decide)

/-! Injectivity of the hex rendering, needed for state-token freshness. -/

theorem hexChar_inj_fin : ∀ a b : Fin 16, hexChar a.val = hexChar b.val → a = b := by decide

theorem hexChar_inj (a b : Nat) (ha : a < 16) (hb : b < 16) (h : hexChar a = hexChar b) :
    a = b := by
  have := hexChar_inj_fin ⟨a, ha⟩ ⟨b, hb⟩ h
  exact congrArg Fin.val this

theorem bytesToHex_inj (l1 : List Nat) : ∀ (l2 : List Nat), (∀ b ∈ l1, b < 256) →
    (∀ b ∈ l2, b < 256) → bytesToHex l1 = bytesToHex l2 → l1 = l2 := by
  induction l1 with
  | nil =>
    intro l2 _ _ he
    have hd := congrArg String.data he
    cases l2 with
    | nil => rfl
    | cons b r => simp [bytesToHex] at hd
  | cons a t ih =>
    intro l2 h1 h2 he
    have hd := congrArg String.data he
    cases l2 with
    | nil => simp [bytesToHex] at hd
    | cons b r =>
      simp only [bytesToHex, List.map_cons, List.flatten_cons, List.cons_append,
        List.nil_append] at hd
      have ha : a < 256 := h1 a (by simp)
      have hbb : b < 256 := h2 b (by simp)
      have hdiv : a / 16 = b / 16 :=
        hexChar_inj _ _ (Nat.div_lt_of_lt_mul (by omega)) (Nat.div_lt_of_lt_mul (by omega))
          (by exact (List.cons.injEq _ _ _ _ ▸ hd).1)
      have hmod : a % 16 = b % 16 :=
        hexChar_inj _ _ (Nat.mod_lt _ (by norm_num)) (Nat.mod_lt _ (by norm_num))
          (by
            have := (List.cons.injEq _ _ _ _ ▸ hd).2
            exact (List.cons.injEq _ _ _ _ ▸ this).1)
      have hab : a = b := by
        have da := Nat.div_add_mod a 16
        have db := Nat.div_add_mod b 16
        omega
      have htail : bytesToHex t = bytesToHex r := by
        have := (List.cons.injEq _ _ _ _ ▸ hd).2
        have := (List.cons.injEq _ _ _ _ ▸ this).2
        exact congrArg String.mk this
      have := ih r (fun x hx => h1 x (by simp [hx])) (fun x hx => h2 x (by simp [hx])) htail
      rw [hab, this]

/-- C9: the state token returned by `initializeOAuth` (GitHub provider) is
exactly the hex rendering of the fresh `crypto.randomBytes(16)` draw — never
the caller-supplied state value; the provider result does not depend on the
input `OAuthState` object beyond `redirectUri`/`scopes`; and two calls with
identical input context but distinct random draws produce distinct state
tokens. -/
theorem C9_state_token_freshness :
    (∀ (cfg : OAuthConfig) (tok : String) (rs rv : List Nat) (ctx : IntegrationContext),
       (Integration.initializeOAuth cfg tok rs rv ctx).data.map (·.state) =
         some (bytesToHex rs))
    ∧ (∀ (cfg : OAuthConfig) (rs rv : List Nat) (st st2 : OAuthState),
       (GitHubOAuth.getAuthorizationUrl cfg rs rv st).state =
         (GitHubOAuth.getAuthorizationUrl cfg rs rv st2).state)
    ∧ (∀ (cfg : OAuthConfig) (tok tok2 : String) (rs rs2 rv rv2 : List Nat)
         (ctx : IntegrationContext),
       (∀ b ∈ rs, b < 256) → (∀ b ∈ rs2, b < 256) → rs ≠ rs2 →
       (Integration.initializeOAuth cfg tok rs rv ctx).data.map (·.state) ≠
         (Integration.initializeOAuth cfg tok2 rs2 rv2 ctx).data.map (·.state)) := by
  refine ⟨?_, ?_, ?_⟩
  · intro cfg tok rs rv ctx
    unfold Integration.initializeOAuth GitHubOAuth.getAuthorizationUrl
      OAuthProvider.generateState
    by_cases h : jsBoolTruthy (GitHubOAuth.mkConfig cfg).usePKCE <;> simp [h]
  · intro cfg rs rv st st2
    unfold GitHubOAuth.getAuthorizationUrl
    by_cases h : jsBoolTruthy (GitHubOAuth.mkConfig cfg).usePKCE <;> simp [h]
  · intro cfg tok tok2 rs rs2 rv rv2 ctx hv1 hv2 hne
    unfold Integration.initializeOAuth GitHubOAuth.getAuthorizationUrl
      OAuthProvider.generateState
    by_cases h : jsBoolTruthy (GitHubOAuth.mkConfig cfg).usePKCE <;>
      simp [h] <;>
      exact fun he => hne (bytesToHex_inj rs rs2 hv1 hv2 he)

/-! Structural lemmas about `processFull` and `retry`, shared by the
attempt-accounting and delivery-count theorems. -/

/-- `processFull` writes a delivery record if and only if a handler ran, and
then under exactly the generated id. -/
theorem processFull_recordedId (freshId : String) (now : ℚ) (payload : WebhookPayload)
    (config : WebhookConfig) (ctx : IntegrationContext) (s : ProcessorState) :
    (WebhookProcessor.processFull freshId now payload config ctx s).2.2 = none ∨
      (WebhookProcessor.processFull freshId now payload config ctx s).2.2 = some freshId := by
  unfold WebhookProcessor.processFull
  dsimp only
  split
  · exact Or.inl rfl
  · split
    · exact Or.inl rfl
    · split
      · exact Or.inl rfl
      · split
        · exact Or.inr rfl
        · exact Or.inr rfl

/-- When validation passes with a truthy event and a handler (specific or
catch-all) is registered, `processFull` invokes it and records a brand-new
single-attempt delivery under the freshly generated id, leaving the handler
registry untouched. -/
theorem processFull_reaches_handler (freshId : String) (now : ℚ) (payload : WebhookPayload)
    (config : WebhookConfig) (ctx : IntegrationContext)
    (hs : List (String × WebhookHandler)) (dl : List (String × WebhookDelivery))
    (h1 : (WebhookValidator.validate payload config).isValid = true)
    (h2 : optTruthy (WebhookValidator.validate payload config).event = true)
    (h3 : (jsOrOpt (lookupA hs ((WebhookValidator.validate payload config).event.getD ""))
            (lookupA hs "*")).isSome = true) :
    ∃ res d, WebhookProcessor.processFull freshId now payload config ctx ⟨hs, dl⟩ =
      (res, ⟨hs, setA dl freshId d⟩, some freshId) ∧ d.attempts.length = 1 := by
  unfold WebhookProcessor.processFull
  simp only [h1, h2, Bool.not_true, Bool.false_eq_true, if_false]
  obtain ⟨handler, hh⟩ := Option.isSome_iff_exists.mp h3
  rw [hh]
  dsimp only
  cases handler payload ctx with
  | ok result => exact ⟨result, _, rfl, rfl⟩
  | thrown msg => exact ⟨_, _, rfl, rfl⟩

/-- The delivery written back by `retry` keeps the appended attempt list
regardless of which terminal status the result mandates. -/
theorem retry_status_update_attempts (result : WebhookProcessingResult) (d1 : WebhookDelivery) :
    ((if result.success then { d1 with status := DeliveryStatus.delivered }
      else if !jsBoolTruthy result.shouldRetry then { d1 with status := DeliveryStatus.failed }
      else d1) : WebhookDelivery).attempts = d1.attempts := by
  split
  · rfl
  · split <;> rfl

/-- One `retry` call that passes the lookup and max-retries checks, against a
handler-reaching payload and a fresh generated id: the store gains exactly
one new record (the one the inner `process` wrote), the retried delivery
gains exactly one attempt, and every other key is untouched. -/
theorem retry_step_accounting (rand : ℚ) (freshId : String) (now : ℚ) (deliveryId : String)
    (payload : WebhookPayload) (config : WebhookConfig) (ctx : IntegrationContext)
    (hs : List (String × WebhookHandler)) (dl : List (String × WebhookDelivery))
    (d : WebhookDelivery)
    (hd : lookupA dl deliveryId = some d)
    (hlt : d.attempts.length <
      (config.retryPolicy.getD WebhookProcessor.getDefaultRetryPolicy).maxRetries)
    (hne : freshId ≠ deliveryId)
    (hfresh : lookupA dl freshId = none)
    (h1 : (WebhookValidator.validate payload config).isValid = true)
    (h2 : optTruthy (WebhookValidator.validate payload config).event = true)
    (h3 : (jsOrOpt (lookupA hs ((WebhookValidator.validate payload config).event.getD ""))
            (lookupA hs "*")).isSome = true) :
    ∃ dl2,
      (WebhookProcessor.retry rand freshId now deliveryId payload config ctx ⟨hs, dl⟩).2 =
        ⟨hs, dl2⟩
      ∧ (lookupA dl2 deliveryId).map (fun x => x.attempts.length) =
          some (d.attempts.length + 1)
      ∧ dl2.length = dl.length + 1
      ∧ (∀ i, i ≠ deliveryId → i ≠ freshId → lookupA dl2 i = lookupA dl i) := by
  unfold WebhookProcessor.retry
  rw [show lookupA (ProcessorState.mk hs dl).deliveries deliveryId = some d from hd]
  dsimp only
  rw [if_neg (by omega)]
  obtain ⟨res, dN, heq, _⟩ := processFull_reaches_handler freshId now payload config ctx hs
    (setA dl deliveryId { d with status := DeliveryStatus.retrying }) h1 h2 h3
  rw [heq]
  dsimp only
  rw [if_neg (by simp [hne])]
  refine ⟨_, rfl, ?_, ?_, ?_⟩
  · rw [lookupA_setA_self]
    simp only [Option.map_some']
    split
    · simp
    · split <;> simp
  · have hpresent : (lookupA (setA (setA dl deliveryId
        { d with status := DeliveryStatus.retrying }) freshId dN) deliveryId).isSome := by
      rw [lookupA_setA_ne _ _ _ _ (Ne.symm hne), lookupA_setA_self]
      rfl
    rw [length_setA_present _ _ _ hpresent]
    rw [length_setA_absent _ _ _ (by rw [lookupA_setA_ne _ _ _ _ hne]; exact hfresh)]
    rw [length_setA_present _ _ _ (by rw [hd]; rfl)]
  · intro i hi1 hi2
    rw [lookupA_setA_ne _ _ _ _ hi1, lookupA_setA_ne _ _ _ _ hi2,
      lookupA_setA_ne _ _ _ _ hi1]

/-- Driving `retry` with a list of pairwise-fresh generated ids: each call
adds one store record and one attempt on the retried delivery. -/
theorem retryN_accounting (rand now : ℚ) (deliveryId : String) (payload : WebhookPayload)
    (config : WebhookConfig) (ctx : IntegrationContext)
    (hs : List (String × WebhookHandler))
    (h1 : (WebhookValidator.validate payload config).isValid = true)
    (h2 : optTruthy (WebhookValidator.validate payload config).event = true)
    (h3 : (jsOrOpt (lookupA hs ((WebhookValidator.validate payload config).event.getD ""))
            (lookupA hs "*")).isSome = true) :
    ∀ (ids : List String) (dl : List (String × WebhookDelivery)) (d : WebhookDelivery),
      lookupA dl deliveryId = some d →
      (∀ i ∈ ids, lookupA dl i = none) →
      ids.Nodup → deliveryId ∉ ids →
      d.attempts.length + ids.length ≤
        (config.retryPolicy.getD WebhookProcessor.getDefaultRetryPolicy).maxRetries →
      (retryN rand now deliveryId payload config ctx ids ⟨hs, dl⟩).deliveries.length =
          dl.length + ids.length
        ∧ (lookupA (retryN rand now deliveryId payload config ctx ids
            ⟨hs, dl⟩).deliveries deliveryId).map (fun x => x.attempts.length) =
            some (d.attempts.length + ids.length) := by
  intro ids
  induction ids with
  | nil =>
    intro dl d hd _ _ _ _
    refine ⟨rfl, ?_⟩
    unfold retryN
    rw [show lookupA (ProcessorState.mk hs dl).deliveries deliveryId = some d from hd]
    rfl
  | cons f rest ih =>
    intro dl d hd hfresh hnodup hnotmem hcap
    obtain ⟨dl2, heq, hmap, hsize2, hframe2⟩ :=
      retry_step_accounting rand f now deliveryId payload config ctx hs dl d hd
        (by simp at hcap; omega)
        (fun he => hnotmem (he ▸ List.mem_cons_self f rest))
        (hfresh f (List.mem_cons_self f rest)) h1 h2 h3
    obtain ⟨d2, hlook2, hlen2⟩ := Option.map_eq_some'.mp hmap
    unfold retryN
    rw [heq]
    obtain ⟨ha, hb⟩ := ih dl2 d2 hlook2
      (fun i hi => by
        rw [hframe2 i (fun he => hnotmem (he ▸ List.mem_cons_of_mem f hi))
          (fun he => (List.nodup_cons.mp hnodup).1 (he ▸ hi))]
        exact hfresh i (List.mem_cons_of_mem f hi))
      (List.nodup_cons.mp hnodup).2
      (fun hmem => hnotmem (List.mem_cons_of_mem f hmem))
      (by simp at hcap ⊢; omega)
    refine ⟨?_, ?_⟩
    · rw [ha, hsize2]
      simp
      omega
    · rw [hb, hlen2]
      simp
      omega

/-! Support facts around the signature round-trip (spec §8, claim C3). The
round-trip and the rejection of any distinct equal-length signature are
structural; the remaining C3 clause — that a single-byte mutation of the
*payload* always flips verification — is second-preimage resistance of
HMAC-SHA256, which is neither provable nor refutable here. -/

/-- A signature produced by `generate` always verifies. -/
theorem verify_generate_roundtrip (p s : String) :
    HmacSha256Validator.validate p (HmacSha256Validator.generate p s) s = .ok true
    ∧ HmacSha1Validator.validate p (HmacSha1Validator.generate p s) s = .ok true :=
  ⟨(timingSafeEqual_ok_true_iff _ _ rfl).mpr rfl,
   (timingSafeEqual_ok_true_iff _ _ rfl).mpr rfl⟩

/-- Any candidate signature whose bytes differ from the generated signature
(at equal byte length, e.g. a single mutated byte) is rejected with a plain
`false`. -/
theorem verify_rejects_wrong_signature (p s : String) (sigBytes : List Nat)
    (hlen : sigBytes.length = (utf8Bytes (HmacSha256Validator.generate p s)).length)
    (hne : sigBytes ≠ utf8Bytes (HmacSha256Validator.generate p s)) :
    timingSafeEqual sigBytes (utf8Bytes (HmacSha256Validator.generate p s)) = .ok false := by
  unfold timingSafeEqual
  rw [if_pos hlen]
  have hnz : ¬ (((sigBytes.zip (utf8Bytes (HmacSha256Validator.generate p s))).foldl
      (fun acc p => acc ||| (p.1 ^^^ p.2)) 0) = 0) := by
    intro h0
    exact hne (zip_eq_of_forall hlen ((foldl_or_xor_eq_zero _ 0).mp h0).2)
  simp only [Except.ok.injEq]
  exact beq_eq_false_iff_ne.mpr hnz

/-- The generated signature string is exactly the algorithm tag, `=`, and
the lowercase hex digest (GitHub-style format). -/
theorem generate_format (p s : String) :
    HmacSha256Validator.generate p s =
        "sha256=" ++ bytesToHex (hmac SHA256.hash (utf8Bytes s) (utf8Bytes p))
      ∧ HmacSha1Validator.generate p s =
        "sha1=" ++ bytesToHex (hmac SHA1.hash (utf8Bytes s) (utf8Bytes p)) :=
  ⟨rfl, rfl⟩

/-- Every character the hex rendering emits is a lowercase hex digit. -/
theorem bytesToHex_chars_lowercase (bs : List Nat) :
    ∀ c ∈ (bytesToHex bs).data, c ∈ "0123456789abcdef".data := by
  have hmem : ∀ n : Nat, hexChar n ∈ "0123456789abcdef".data := by
    intro n
    unfold hexChar
    by_cases h : n < 16
    · have : ∀ m : Fin 16, "0123456789abcdef".data.getD m.val '0' ∈ "0123456789abcdef".data :=
        by decide
      exact this ⟨n, h⟩
    · rw [List.getD_eq_default]
      · decide
      · simp
        omega
  intro c hc
  simp only [bytesToHex] at hc
  obtain ⟨l, hl, hcl⟩ := List.mem_flatten.mp hc
  obtain ⟨b, _, hb⟩ := List.mem_map.mp hl
  rw [← hb] at hcl
  simp only [List.mem_cons, List.not_mem_nil, or_false] at hcl
  rcases hcl with h | h <;> rw [h] <;> exact hmem _

/-- C1 counterexample: with `maxRetries = 1`, a delivery holding its single
initial attempt (`attempts.length = 1`) is already refused: `retry` returns
`MAX_RETRIES_EXCEEDED` and appends nothing, although the claimed bound
`attempts.length ≤ maxRetries + 1 = 2` would still allow this retry to
append its attempt. The cut-off fires at `attempts.length ≥ maxRetries`,
not at `maxRetries + 1`. -/
theorem C1_counterexample :
    ((WebhookProcessor.retry 0 "d2" 1 "d1" demoPayload demoConfig1 demoCtx
        (WebhookProcessor.process "d1" 0 demoPayload demoConfig1 demoCtx
          demoState).2).1.error.map (fun e => e.code) = some "MAX_RETRIES_EXCEEDED")
    ∧ ((lookupA (WebhookProcessor.retry 0 "d2" 1 "d1" demoPayload demoConfig1 demoCtx
        (WebhookProcessor.process "d1" 0 demoPayload demoConfig1 demoCtx
          demoState).2).2.deliveries "d1").map (fun x => x.attempts.length) = some 1)
    ∧ ((lookupA (WebhookProcessor.process "d1" 0 demoPayload demoConfig1 demoCtx
        demoState).2.deliveries "d1").map (fun x => x.attempts.length) = some 1)
    ∧ ((demoConfig1.retryPolicy.getD WebhookProcessor.getDefaultRetryPolicy).maxRetries = 1) := by
  refine ⟨by decide, by decide, by decide, by decide⟩

/-- C1 (amended): a `retry` call that finds the delivery appends exactly one
attempt when `attempts.length < maxRetries` (for a fresh generated id);
already at `attempts.length ≥ maxRetries` it marks the delivery failed and
returns the non-retryable `MAX_RETRIES_EXCEEDED` without appending. Hence a
delivery accumulates at most `max 1 maxRetries` attempts — one initial
attempt plus at most `maxRetries - 1` retries — not `maxRetries + 1`. -/
theorem C1_retry_attempt_accounting (rand : ℚ) (freshId : String) (now : ℚ)
    (deliveryId : String) (payload : WebhookPayload) (config : WebhookConfig)
    (ctx : IntegrationContext) (s : ProcessorState) (d : WebhookDelivery)
    (hd : lookupA s.deliveries deliveryId = some d) :
    ((config.retryPolicy.getD WebhookProcessor.getDefaultRetryPolicy).maxRetries ≤
        d.attempts.length →
      WebhookProcessor.retry rand freshId now deliveryId payload config ctx s =
        ({ success := false,
           error := some
             { code := "MAX_RETRIES_EXCEEDED",
               message := "Maximum retry attempts (" ++
                 toString (config.retryPolicy.getD
                   WebhookProcessor.getDefaultRetryPolicy).maxRetries ++ ") exceeded",
               retryable := some false } },
         { s with
           deliveries :=
             setA s.deliveries deliveryId { d with status := DeliveryStatus.failed } }))
    ∧ (d.attempts.length <
        (config.retryPolicy.getD WebhookProcessor.getDefaultRetryPolicy).maxRetries →
       freshId ≠ deliveryId →
       (lookupA (WebhookProcessor.retry rand freshId now deliveryId payload config ctx
           s).2.deliveries deliveryId).map (fun x => x.attempts.length) =
         some (d.attempts.length + 1)) := by
  constructor
  · intro hge
    unfold WebhookProcessor.retry
    rw [hd]
    dsimp only
    rw [if_pos (by omega)]
  · intro hlt hne
    unfold WebhookProcessor.retry
    rw [hd]
    dsimp only
    rw [if_neg (by omega)]
    have hrid := processFull_recordedId freshId now payload config ctx
      { s with
        deliveries :=
          setA s.deliveries deliveryId { d with status := DeliveryStatus.retrying } }
    dsimp only at hrid ⊢
    split
    · rename_i hcond
      exfalso
      rcases hrid with hr | hr
      · rw [hr] at hcond
        exact Option.noConfusion hcond
      · rw [hr] at hcond
        exact hne (by simpa using hcond)
    · rw [lookupA_setA_self]
      simp only [Option.map_some']
      split
      · simp
      · split <;> simp

/-- C1 witness: a delivery with one attempt under a `maxRetries = 3` policy
is retried and gains exactly one attempt. -/
theorem C1_witness :
    (lookupA (WebhookProcessor.retry 0 "d9" 1 "d1" demoPayload demoConfig0 demoCtx
        ⟨[("push", demoHandler)], [("d1", demoDelivery)]⟩).2.deliveries "d1").map
        (fun x => x.attempts.length) = some (demoDelivery.attempts.length + 1) :=
  (C1_retry_attempt_accounting 0 "d9" 1 "d1" demoPayload demoConfig0 demoCtx
    ⟨[("push", demoHandler)], [("d1", demoDelivery)]⟩ demoDelivery (by decide)).2
    (by decide) (by decide)

/-- C8: a handler-reaching payload processed once and then retried `k` times
(with pairwise-distinct fresh generated ids) leaves `k + 1` delivery records
in the store — every passing retry re-invokes `process`, which records a
brand-new delivery under the freshly generated id — while the retried
delivery itself carries `k + 1` attempt entries. -/
theorem C8_each_retry_records_new_delivery
    (hs : List (String × WebhookHandler)) (dl0 : List (String × WebhookDelivery))
    (payload : WebhookPayload) (config : WebhookConfig) (ctx : IntegrationContext)
    (rand now : ℚ) (id0 : String) (ids : List String)
    (h1 : (WebhookValidator.validate payload config).isValid = true)
    (h2 : optTruthy (WebhookValidator.validate payload config).event = true)
    (h3 : (jsOrOpt (lookupA hs ((WebhookValidator.validate payload config).event.getD ""))
            (lookupA hs "*")).isSome = true)
    (hnodup : (id0 :: ids).Nodup)
    (hfresh : ∀ i ∈ id0 :: ids, lookupA dl0 i = none)
    (hcap : ids.length + 1 ≤
      (config.retryPolicy.getD WebhookProcessor.getDefaultRetryPolicy).maxRetries) :
    ((retryN rand now id0 payload config ctx ids
        (WebhookProcessor.process id0 now payload config ctx
          ⟨hs, dl0⟩).2).deliveries.length = dl0.length + ids.length + 1)
    ∧ ((lookupA (retryN rand now id0 payload config ctx ids
        (WebhookProcessor.process id0 now payload config ctx ⟨hs, dl0⟩).2).deliveries
        id0).map (fun x => x.attempts.length) = some (ids.length + 1)) := by
  obtain ⟨res, dI, heq, hlen1⟩ :=
    processFull_reaches_handler id0 now payload config ctx hs dl0 h1 h2 h3
  have hproc : (WebhookProcessor.process id0 now payload config ctx ⟨hs, dl0⟩).2 =
      ⟨hs, setA dl0 id0 dI⟩ := by
    unfold WebhookProcessor.process
    rw [heq]
  rw [hproc]
  obtain ⟨ha, hb⟩ := retryN_accounting rand now id0 payload config ctx hs h1 h2 h3 ids
    (setA dl0 id0 dI) dI (lookupA_setA_self _ _ _)
    (fun i hi => by
      rw [lookupA_setA_ne _ _ _ _
        (fun he => (List.nodup_cons.mp hnodup).1 (by rw [← he]; exact hi))]
      exact hfresh i (List.mem_cons_of_mem _ hi))
    (List.nodup_cons.mp hnodup).2
    (List.nodup_cons.mp hnodup).1
    (by rw [hlen1]; omega)
  refine ⟨?_, ?_⟩
  · rw [ha, length_setA_absent _ _ _ (hfresh id0 (List.mem_cons_self _ _))]
    omega
  · rw [hb, hlen1, Nat.add_comm]

/-- C8 witness: one processed payload retried twice (ids d2, d3) under the
default policy leaves three delivery records and three attempts on the
retried delivery. -/
theorem C8_witness :
    ((retryN 0 0 "d1" demoPayload demoConfig0 demoCtx ["d2", "d3"]
        (WebhookProcessor.process "d1" 0 demoPayload demoConfig0 demoCtx
          ⟨[("push", demoHandler)], []⟩).2).deliveries.length = 0 + 2 + 1)
    ∧ ((lookupA (retryN 0 0 "d1" demoPayload demoConfig0 demoCtx ["d2", "d3"]
        (WebhookProcessor.process "d1" 0 demoPayload demoConfig0 demoCtx
          ⟨[("push", demoHandler)], []⟩).2).deliveries "d1").map
        (fun x => x.attempts.length) = some (2 + 1)) :=
  C8_each_retry_records_new_delivery [("push", demoHandler)] [] demoPayload demoConfig0
    demoCtx 0 0 "d1" ["d2", "d3"] (by decide) (by decide) (by decide) (by decide)
    (by decide) (by decide)

/-- C9 witness: two concrete draws give two different tokens, and the token
is the hex of the draw. -/
theorem C9_witness :
    (Integration.initializeOAuth
        { clientId := "id", redirectUri := "https://app.example/cb", scopes := ["repo"] }
        "callerstate1" (List.replicate 16 0) [] demoCtx).data.map (·.state) ≠
      (Integration.initializeOAuth
        { clientId := "id", redirectUri := "https://app.example/cb", scopes := ["repo"] }
        "callerstate2" (1 :: List.replicate 15 0) [] demoCtx).data.map (·.state) :=
  C9_state_token_freshness.2.2
    { clientId := "id", redirectUri := "https://app.example/cb", scopes := ["repo"] }
    "callerstate1" "callerstate2" (List.replicate 16 0) (1 :: List.replicate 15 0) [] []
    demoCtx (by decide) (by decide) (by decide)

end UIF
